import Mathlib

/-!
Shallow embedding of src/create_icons.py.

The script has two mutually exclusive execution paths, selected by whether
the PIL imaging library imports successfully:

* fallback path (lines 5-30): a hand-rolled emitter of a minimal PNG-shaped
  byte sequence, written for the color icon at (192, 192) and the outline
  icon at (32, 32), followed by an explicit exit().
* primary path (lines 32-55): PIL drawing of a 192x192 RGB color icon and a
  32x32 RGBA outline icon, each saved to a fixed relative path.

Byte strings are modelled as List Nat (each entry a byte value), the
filesystem as a map from path strings to file data together with a
writability predicate (a write to an unwritable path models the OSError a
missing parent directory raises), and a run of the script as a pure function
from an initial filesystem state to a run result: the ordered trace of
write/print events, the final filesystem, the process exit code (0 for
normal completion, 1 for an uncaught Python exception), and whether the run
ended through the explicit exit() call on line 30.
-/

namespace CreateIcons

/-! ### Fallback emitter (lines 10-25) -/

/-- Models struct.pack with the big-endian unsigned 4-byte format: returns
the four big-endian bytes of n, or none (struct.error) when n does not fit
in 4 bytes. -/
def pack_u32be (n : Nat) : Option (List Nat) :=
  if n < 4294967296 then
    some [n / 16777216 % 256, n / 65536 % 256, n / 256 % 256, n % 256]
  else
    none

/-- The bytes of an ASCII string literal, as Python bytes literals denote. -/
def asciiBytes (s : String) : List Nat :=
  s.data.map Char.toNat

/-- The content create_simple_png (lines 10-25) writes to its file: PNG
signature, IHDR length 13, IHDR tag, packed width and height, the five
fixed header bytes, a zero placeholder CRC, IEND length 0, IEND tag, and
the fixed trailer. none when a struct.pack call raises. The color argument
is accepted but never read, exactly as in the source. -/
def create_simple_png_bytes (width height : Nat) (color : Nat × Nat × Nat) :
    Option (List Nat) := do
  let lenIhdr ← pack_u32be 13
  let wBytes ← pack_u32be width
  let hBytes ← pack_u32be height
  let lenIend ← pack_u32be 0
  pure ([0x89, 0x50, 0x4E, 0x47, 0x0D, 0x0A, 0x1A, 0x0A] ++
        lenIhdr ++ asciiBytes "IHDR" ++ wBytes ++ hBytes ++
        [0x08, 0x02, 0x00, 0x00, 0x00] ++ [0x00, 0x00, 0x00, 0x00] ++
        lenIend ++ asciiBytes "IEND" ++ [0xAE, 0x42, 0x60, 0x82])

/-! ### Spec-side byte codecs, used to state the claims about the layout -/

/-- A natural number as a 4-byte big-endian sequence (the encoding the spec
names for the width and height fields). -/
def beBytes4 (n : Nat) : List Nat :=
  [n / 16777216 % 256, n / 65536 % 256, n / 256 % 256, n % 256]

/-- Big-endian decoding of a byte sequence. -/
def decodeBE (bs : List Nat) : Nat :=
  bs.foldl (fun acc b => 256 * acc + b) 0

/-! ### Image model for the primary path

PIL itself is an external library, not part of this repository; the drawing
calls the script makes are modelled with an idealized rasterizer: a pixel
belongs to a filled ellipse iff its center satisfies the ellipse inequality
for the given bounding box, to a stroked ellipse iff it is inside the outer
ellipse but not inside the ellipse shrunk by the stroke width, and to a
filled triangle iff it is on one side of (or on) all three edges. Later
drawing calls overwrite earlier ones, as PIL draws do. -/

/-- Pixel color with an alpha component; for an RGB image the alpha is the
constant 255 and is not part of the file. -/
structure Color where
  r : Nat
  g : Nat
  b : Nat
  a : Nat
deriving DecidableEq, Repr

/-- PIL image mode, as passed to Image.new in the script. -/
inductive Mode where
  | RGB
  | RGBA
deriving DecidableEq, Repr

/-- An in-memory image: mode, dimensions, and the pixel grid. -/
structure Image where
  mode : Mode
  width : Nat
  height : Nat
  pixel : Nat → Nat → Color

/-- Models PIL Image.new: a canvas of the given mode and size, every pixel
the background color. -/
def Image.new (m : Mode) (w h : Nat) (c : Color) : Image :=
  ⟨m, w, h, fun _ _ => c⟩

/-- Membership of the point (x, y) in the filled ellipse inscribed in the
bounding box [x0, y0, x1, y1] (the PIL ellipse call with a fill). -/
def inEllipse (x0 y0 x1 y1 x y : Int) : Bool :=
  let dx := 2 * x - (x0 + x1)
  let dy := 2 * y - (y0 + y1)
  let rx := x1 - x0
  let ry := y1 - y0
  decide (ry ^ 2 * dx ^ 2 + rx ^ 2 * dy ^ 2 ≤ rx ^ 2 * ry ^ 2)

/-- Signed area test for the triangle edge from a to b against point p. -/
def edgeCross (a b p : Int × Int) : Int :=
  (b.1 - a.1) * (p.2 - a.2) - (b.2 - a.2) * (p.1 - a.1)

/-- Membership of p in the filled triangle a b c, either orientation. -/
def inTriangle (a b c p : Int × Int) : Bool :=
  decide ((0 ≤ edgeCross a b p ∧ 0 ≤ edgeCross b c p ∧ 0 ≤ edgeCross c a p) ∨
          (edgeCross a b p ≤ 0 ∧ edgeCross b c p ≤ 0 ∧ edgeCross c a p ≤ 0))

/-- Models a PIL draw.ellipse call with a fill color. -/
def drawEllipseFill (x0 y0 x1 y1 : Int) (c : Color) (i : Image) : Image :=
  { i with pixel := fun x y =>
      if inEllipse x0 y0 x1 y1 (x : Int) (y : Int) then c else i.pixel x y }

/-- Models a PIL draw.ellipse call with an outline color and stroke width:
inside the outer ellipse but not inside the ellipse shrunk by the width. -/
def drawEllipseOutline (x0 y0 x1 y1 w : Int) (c : Color) (i : Image) : Image :=
  { i with pixel := fun x y =>
      if inEllipse x0 y0 x1 y1 (x : Int) (y : Int) &&
         !inEllipse (x0 + w) (y0 + w) (x1 - w) (y1 - w) (x : Int) (y : Int) then
        c
      else i.pixel x y }

/-- Models a PIL draw.polygon call with a fill color, for a triangle. -/
def drawTriangleFill (a b c : Int × Int) (col : Color) (i : Image) : Image :=
  { i with pixel := fun x y =>
      if inTriangle a b c ((x : Int), (y : Int)) then col else i.pixel x y }

/-- The brand blue 0x0078D4 used as background and pin hole color. -/
def brandBlue : Color := ⟨0, 120, 212, 255⟩

/-- Opaque white, used for the pin glyph. -/
def white : Color := ⟨255, 255, 255, 255⟩

/-- The fully transparent RGBA background (0, 0, 0, 0) of the outline icon. -/
def transparent : Color := ⟨0, 0, 0, 0⟩

/-- The color icon the primary path composes (lines 33-39): a 192x192 RGB
canvas filled brand blue, a white filled ellipse [76, 56, 116, 96], a brand
blue filled ellipse [86, 66, 106, 86], and a white filled triangle
(96, 96), (86, 116), (106, 116). -/
def colorIcon : Image :=
  drawTriangleFill (96, 96) (86, 116) (106, 116) white
    (drawEllipseFill 86 66 106 86 brandBlue
      (drawEllipseFill 76 56 116 96 white
        (Image.new Mode.RGB 192 192 brandBlue)))

/-- The outline icon the primary path composes (lines 45-50): a 32x32 RGBA
transparent canvas, a white stroked ellipse [12, 8, 20, 16] of width 2, and
a white filled triangle (16, 16), (14, 20), (18, 20). -/
def outlineIcon : Image :=
  drawTriangleFill (16, 16) (14, 20) (18, 20) white
    (drawEllipseOutline 12 8 20 16 2 white
      (Image.new Mode.RGBA 32 32 transparent))

/-! ### Filesystem and run model -/

/-- Data stored at a path: raw bytes from the fallback emitter, or an image
saved by PIL (PNG save and reload is lossless for RGB and RGBA, so the
decoded content of a saved file is the image itself). -/
inductive FileData where
  | raw : List Nat → FileData
  | img : Image → FileData

/-- The filesystem: content of each path, and whether a write to the path
can succeed (false models a missing parent directory or unwritable path,
where Python open / save raises). The script never creates directories, so
writability is never changed by a run. -/
structure FSState where
  files : String → Option FileData
  writable : String → Bool

/-- The state after storing data d at a path, other paths untouched. -/
def setFile (s : FSState) (path : String) (d : FileData) : FSState :=
  { s with files := fun p => if p = path then some d else s.files p }

/-- A write: succeeds and overwrites wholesale when the path is writable,
otherwise fails (the exception the script never catches). -/
def writeFileTo (s : FSState) (path : String) (d : FileData) : Option FSState :=
  if s.writable path then some (setFile s path d) else none

/-- Observable events of a run, in order. -/
inductive Event where
  | write : String → FileData → Event
  | printed : String → Event

/-- Result of one process invocation: ordered events, final filesystem,
process exit code, and whether the run ended via the explicit exit() call
on line 30. -/
structure RunResult where
  events : List Event
  fs : FSState
  exitCode : Nat
  explicitExit : Bool

/-- The fallback path (lines 5-30): print the notice, emit both placeholder
files through create_simple_png, print the closing notice, and exit().
An uncaught exception (struct.error, or a failing open) aborts the run with
exit code 1, leaving the writes made so far in place. -/
def fallbackRun (s : FSState) : RunResult :=
  let e0 : List Event := [Event.printed "PIL not available, creating simple files"]
  match create_simple_png_bytes 192 192 (0, 120, 212) with
  | none => ⟨e0, s, 1, false⟩
  | some bs1 =>
    match writeFileTo s "teams-package/color.png" (FileData.raw bs1) with
    | none => ⟨e0, s, 1, false⟩
    | some s1 =>
      let e1 := e0 ++ [Event.write "teams-package/color.png" (FileData.raw bs1)]
      match create_simple_png_bytes 32 32 (255, 255, 255) with
      | none => ⟨e1, s1, 1, false⟩
      | some bs2 =>
        match writeFileTo s1 "teams-package/outline.png" (FileData.raw bs2) with
        | none => ⟨e1, s1, 1, false⟩
        | some s2 =>
          ⟨e1 ++ [Event.write "teams-package/outline.png" (FileData.raw bs2),
                  Event.printed "Simple PNG files created"],
           s2, 0, true⟩

/-- The primary path (lines 32-55): compose and save the color icon, print,
compose and save the outline icon, print, print the success notice, and
fall off the end of the script (exit code 0, no explicit exit call). A
failing save aborts with exit code 1, leaving earlier writes in place. -/
def primaryRun (s : FSState) : RunResult :=
  match writeFileTo s "teams-package/color.png" (FileData.img colorIcon) with
  | none => ⟨[], s, 1, false⟩
  | some s1 =>
    let e1 : List Event :=
      [Event.write "teams-package/color.png" (FileData.img colorIcon),
       Event.printed "Color icon saved: teams-package/color.png"]
    match writeFileTo s1 "teams-package/outline.png" (FileData.img outlineIcon) with
    | none => ⟨e1, s1, 1, false⟩
    | some s2 =>
      ⟨e1 ++ [Event.write "teams-package/outline.png" (FileData.img outlineIcon),
              Event.printed "Outline icon saved: teams-package/outline.png",
              Event.printed "Icons created successfully!"],
       s2, 0, false⟩

/-- One invocation of the script: the import probe selects the path once. -/
def runScript (pilAvailable : Bool) (s : FSState) : RunResult :=
  if pilAvailable then primaryRun s else fallbackRun s

/-- The nominal width recorded in stored file data: the image width for a
saved image, the big-endian decoding of bytes 16-19 for raw bytes. -/
def nominalWidth : FileData → Nat
  | FileData.raw bs => decodeBE ((bs.drop 16).take 4)
  | FileData.img i => i.width

/-- The bytes the fallback writes for the color placeholder. -/
def fallbackColorBytes : List Nat :=
  (create_simple_png_bytes 192 192 (0, 120, 212)).getD []

/-- The bytes the fallback writes for the outline placeholder. -/
def fallbackOutlineBytes : List Nat :=
  (create_simple_png_bytes 32 32 (255, 255, 255)).getD []

/-- An empty filesystem on which every write succeeds. -/
def fsAllWritable : FSState := ⟨fun _ => none, fun _ => true⟩

/-- An empty filesystem on which no write succeeds (output directory
missing). -/
def fsNoneWritable : FSState := ⟨fun _ => none, fun _ => false⟩

/-- A filesystem where only the color path is writable, so the second write
of a run fails after the first succeeded. -/
def fsColorOnlyWritable : FSState :=
  ⟨fun _ => none, fun p => p == "teams-package/color.png"⟩

/-- The byte layout the spec describes for a fallback file: signature,
big-endian length 13, IHDR tag, big-endian width and height, five fixed
header bytes, a zero placeholder checksum, big-endian length 0, IEND tag,
and the fixed trailer. -/
def pngLayout (w h : Nat) : List Nat :=
  [0x89, 0x50, 0x4E, 0x47, 0x0D, 0x0A, 0x1A, 0x0A] ++
  beBytes4 13 ++ asciiBytes "IHDR" ++ beBytes4 w ++ beBytes4 h ++
  [0x08, 0x02, 0x00, 0x00, 0x00] ++ [0x00, 0x00, 0x00, 0x00] ++
  beBytes4 0 ++ asciiBytes "IEND" ++ [0xAE, 0x42, 0x60, 0x82]

/-! ### Helper lemmas shared by the claim theorems -/

/-- Packing succeeds on a value below 2 to the 32 and yields its big-endian
bytes. -/
theorem pack_u32be_eq (n : Nat) (hn : n < 4294967296) :
    pack_u32be n = some (beBytes4 n) := by
  unfold pack_u32be beBytes4
  rw [if_pos hn]

/-- Big-endian decoding inverts the 4-byte big-endian encoding. -/
theorem decodeBE_beBytes4 (n : Nat) (hn : n < 4294967296) :
    decodeBE (beBytes4 n) = n := by
  simp [decodeBE, beBytes4, List.foldl]
  omega

/-- The emitter output, in range, is exactly the layout the spec names. -/
theorem create_eq_pngLayout (w h : Nat) (c : Nat × Nat × Nat)
    (hw : w < 4294967296) (hh : h < 4294967296) :
    create_simple_png_bytes w h c = some (pngLayout w h) := by
  simp [create_simple_png_bytes, pack_u32be_eq 13 (by decide), pack_u32be_eq w hw,
        pack_u32be_eq h hh, pack_u32be_eq 0 (by decide), pngLayout]

/-- The emitter fails when the width does not fit in 4 bytes. -/
theorem create_none_of_width (w h : Nat) (c : Nat × Nat × Nat)
    (hw : ¬ w < 4294967296) : create_simple_png_bytes w h c = none := by
  simp [create_simple_png_bytes, pack_u32be, hw]

/-- The emitter fails when the height does not fit in 4 bytes. -/
theorem create_none_of_height (w h : Nat) (c : Nat × Nat × Nat)
    (hh : ¬ h < 4294967296) : create_simple_png_bytes w h c = none := by
  simp [create_simple_png_bytes, pack_u32be, hh]

/-- Bytes 16-19 of the layout are the packed width. -/
theorem pngLayout_field16 (w h : Nat) :
    ((pngLayout w h).drop 16).take 4 = beBytes4 w := rfl

/-- Bytes 20-23 of the layout are the packed height. -/
theorem pngLayout_field20 (w h : Nat) :
    ((pngLayout w h).drop 20).take 4 = beBytes4 h := rfl

/-- The layout always has exactly 45 bytes. -/
theorem pngLayout_length (w h : Nat) : (pngLayout w h).length = 45 := rfl

/-- The color placeholder call of line 27 succeeds with the stored bytes. -/
theorem fb_color_eq :
    create_simple_png_bytes 192 192 (0, 120, 212) = some fallbackColorBytes := rfl

/-- The outline placeholder call of line 28 succeeds with the stored bytes. -/
theorem fb_outline_eq :
    create_simple_png_bytes 32 32 (255, 255, 255) = some fallbackOutlineBytes := rfl

/-- With PIL present the script runs the primary path. -/
theorem runScript_true (s : FSState) : runScript true s = primaryRun s := rfl

/-- With PIL absent the script runs the fallback path. -/
theorem runScript_false (s : FSState) : runScript false s = fallbackRun s := rfl

/-- Primary path when the color path is unwritable: immediate abort. -/
theorem primaryRun_fail1 (s : FSState)
    (hc : s.writable "teams-package/color.png" = false) :
    primaryRun s = ⟨[], s, 1, false⟩ := by
  simp [primaryRun, writeFileTo, hc]

/-- Primary path when only the outline write fails: the color file stays. -/
theorem primaryRun_fail2 (s : FSState)
    (hc : s.writable "teams-package/color.png" = true)
    (ho : s.writable "teams-package/outline.png" = false) :
    primaryRun s =
      ⟨[Event.write "teams-package/color.png" (FileData.img colorIcon),
        Event.printed "Color icon saved: teams-package/color.png"],
       setFile s "teams-package/color.png" (FileData.img colorIcon), 1, false⟩ := by
  simp [primaryRun, writeFileTo, setFile, hc, ho]

/-- Primary path when both writes succeed. -/
theorem primaryRun_success (s : FSState)
    (hc : s.writable "teams-package/color.png" = true)
    (ho : s.writable "teams-package/outline.png" = true) :
    primaryRun s =
      ⟨[Event.write "teams-package/color.png" (FileData.img colorIcon),
        Event.printed "Color icon saved: teams-package/color.png",
        Event.write "teams-package/outline.png" (FileData.img outlineIcon),
        Event.printed "Outline icon saved: teams-package/outline.png",
        Event.printed "Icons created successfully!"],
       setFile (setFile s "teams-package/color.png" (FileData.img colorIcon))
         "teams-package/outline.png" (FileData.img outlineIcon), 0, false⟩ := by
  simp [primaryRun, writeFileTo, setFile, hc, ho]

/-- Fallback path when the color path is unwritable: abort after the
notice. -/
theorem fallbackRun_fail1 (s : FSState)
    (hc : s.writable "teams-package/color.png" = false) :
    fallbackRun s =
      ⟨[Event.printed "PIL not available, creating simple files"], s, 1, false⟩ := by
  rw [fallbackRun, fb_color_eq]
  simp [writeFileTo, hc]

/-- Fallback path when only the outline write fails: the color file stays. -/
theorem fallbackRun_fail2 (s : FSState)
    (hc : s.writable "teams-package/color.png" = true)
    (ho : s.writable "teams-package/outline.png" = false) :
    fallbackRun s =
      ⟨[Event.printed "PIL not available, creating simple files",
        Event.write "teams-package/color.png" (FileData.raw fallbackColorBytes)],
       setFile s "teams-package/color.png" (FileData.raw fallbackColorBytes),
       1, false⟩ := by
  rw [fallbackRun, fb_color_eq, fb_outline_eq]
  simp [writeFileTo, setFile, hc, ho]

/-- Fallback path when both writes succeed: explicit exit with code 0. -/
theorem fallbackRun_success (s : FSState)
    (hc : s.writable "teams-package/color.png" = true)
    (ho : s.writable "teams-package/outline.png" = true) :
    fallbackRun s =
      ⟨[Event.printed "PIL not available, creating simple files",
        Event.write "teams-package/color.png" (FileData.raw fallbackColorBytes),
        Event.write "teams-package/outline.png" (FileData.raw fallbackOutlineBytes),
        Event.printed "Simple PNG files created"],
       setFile (setFile s "teams-package/color.png" (FileData.raw fallbackColorBytes))
         "teams-package/outline.png" (FileData.raw fallbackOutlineBytes), 0, true⟩ := by
  rw [fallbackRun, fb_color_eq, fb_outline_eq]
  simp [writeFileTo, setFile, hc, ho]

/-! ### Claim theorems -/

/-- C1: for every width w and height h (as 4-byte big-endian fields, so
below 2 to the 32) and every color, the fallback emitter produces exactly
the fixed byte sequence: signature 89 50 4E 47 0D 0A 1A 0A, big-endian
length 13, the tag IHDR, w then h as 4-byte big-endian integers, the five
fixed bytes 08 02 00 00 00, a 4-byte all-zero placeholder checksum, a
big-endian length 0, the tag IEND, and the trailer AE 42 60 82; bytes
16-19 and 20-23 of the output, read big-endian, decode to w and h. -/
theorem claim_C1 (w h : Nat) (c : Nat × Nat × Nat)
    (hw : w < 4294967296) (hh : h < 4294967296) :
    create_simple_png_bytes w h c =
      some ([0x89, 0x50, 0x4E, 0x47, 0x0D, 0x0A, 0x1A, 0x0A] ++
            beBytes4 13 ++ asciiBytes "IHDR" ++ beBytes4 w ++ beBytes4 h ++
            [0x08, 0x02, 0x00, 0x00, 0x00] ++ [0x00, 0x00, 0x00, 0x00] ++
            beBytes4 0 ++ asciiBytes "IEND" ++ [0xAE, 0x42, 0x60, 0x82]) ∧
    ∀ bs, create_simple_png_bytes w h c = some bs →
      decodeBE ((bs.drop 16).take 4) = w ∧ decodeBE ((bs.drop 20).take 4) = h := by
  refine ⟨create_eq_pngLayout w h c hw hh, ?_⟩
  intro bs hbs
  rw [create_eq_pngLayout w h c hw hh] at hbs
  rw [← Option.some.inj hbs]
  rw [pngLayout_field16, pngLayout_field20]
  exact ⟨decodeBE_beBytes4 w hw, decodeBE_beBytes4 h hh⟩

/-- Witness for C1 at the call of line 27: width 192, height 192, the blue
color triple. -/
theorem claim_C1_witness :
    create_simple_png_bytes 192 192 (0, 120, 212) =
      some ([0x89, 0x50, 0x4E, 0x47, 0x0D, 0x0A, 0x1A, 0x0A] ++
            beBytes4 13 ++ asciiBytes "IHDR" ++ beBytes4 192 ++ beBytes4 192 ++
            [0x08, 0x02, 0x00, 0x00, 0x00] ++ [0x00, 0x00, 0x00, 0x00] ++
            beBytes4 0 ++ asciiBytes "IEND" ++ [0xAE, 0x42, 0x60, 0x82]) ∧
    ∀ bs, create_simple_png_bytes 192 192 (0, 120, 212) = some bs →
      decodeBE ((bs.drop 16).take 4) = 192 ∧ decodeBE ((bs.drop 20).take 4) = 192 :=
  claim_C1 192 192 (0, 120, 212) (by decide) (by decide)

/-- C3 counterexample: the emitter does not succeed for every width; at
width 2 to the 32 the struct packing fails before any bytes are produced,
so the call raises rather than returning normally. -/
theorem claim_C3_counterexample :
    create_simple_png_bytes 4294967296 32 (255, 255, 255) = none := by decide

/-- C3 as amended: for every width and height below 2 to the 32 and every
color, the emitter succeeds, and on any writable path the write then
succeeds and stores exactly the emitted bytes. -/
theorem claim_C3_amended (w h : Nat) (c : Nat × Nat × Nat)
    (hw : w < 4294967296) (hh : h < 4294967296) :
    (∃ bs, create_simple_png_bytes w h c = some bs) ∧
    ∀ bs (s : FSState) (path : String),
      create_simple_png_bytes w h c = some bs → s.writable path = true →
      writeFileTo s path (FileData.raw bs) =
        some (setFile s path (FileData.raw bs)) ∧
      (setFile s path (FileData.raw bs)).files path = some (FileData.raw bs) := by
  refine ⟨⟨pngLayout w h, create_eq_pngLayout w h c hw hh⟩, ?_⟩
  intro bs s path _ hwr
  refine ⟨?_, ?_⟩
  · unfold writeFileTo
    rw [hwr]
    rfl
  · simp [setFile]

/-- Witness for C3 as amended, at the call of line 28 on a fully writable
filesystem. -/
theorem claim_C3_amended_witness :
    (∃ bs, create_simple_png_bytes 32 32 (255, 255, 255) = some bs) ∧
    ∀ bs (s : FSState) (path : String),
      create_simple_png_bytes 32 32 (255, 255, 255) = some bs →
      s.writable path = true →
      writeFileTo s path (FileData.raw bs) =
        some (setFile s path (FileData.raw bs)) ∧
      (setFile s path (FileData.raw bs)).files path = some (FileData.raw bs) :=
  claim_C3_amended 32 32 (255, 255, 255) (by decide) (by decide)

/-- C10: the emitter output depends only on width and height: the color
argument is never read, so two calls differing only in color give
byte-identical output, and every successfully emitted file is exactly 45
bytes long. -/
theorem claim_C10 :
    (∀ (w h : Nat) (c c' : Nat × Nat × Nat),
      create_simple_png_bytes w h c = create_simple_png_bytes w h c') ∧
    (∀ (w h : Nat) (c : Nat × Nat × Nat) (bs : List Nat),
      create_simple_png_bytes w h c = some bs → bs.length = 45) := by
  refine ⟨fun w h c c' => rfl, ?_⟩
  intro w h c bs hbs
  by_cases hw : w < 4294967296
  · by_cases hh : h < 4294967296
    · rw [create_eq_pngLayout w h c hw hh] at hbs
      rw [← Option.some.inj hbs]
      exact pngLayout_length w h
    · rw [create_none_of_height w h c hh] at hbs
      exact absurd hbs (by simp)
  · rw [create_none_of_width w h c hw] at hbs
    exact absurd hbs (by simp)

/-- Witness for C10: the two colors the script passes give identical bytes
for a 192 by 192 placeholder, and the emitted color file has 45 bytes. -/
theorem claim_C10_witness :
    create_simple_png_bytes 192 192 (0, 120, 212) =
      create_simple_png_bytes 192 192 (255, 255, 255) ∧
    fallbackColorBytes.length = 45 :=
  ⟨claim_C10.1 192 192 (0, 120, 212) (255, 255, 255),
   claim_C10.2 192 192 (0, 120, 212) fallbackColorBytes (by rfl)⟩

/-- C2: after a successful primary run the saved color file holds exactly
the 192 by 192 RGB color icon (no alpha channel) and the saved outline
file holds exactly the 32 by 32 RGBA outline icon, whose corner pixel
(0, 0) has alpha 0 while some pixel has alpha above 0. -/
theorem claim_C2 (s : FSState) (h : (runScript true s).exitCode = 0) :
    (runScript true s).fs.files "teams-package/color.png" =
      some (FileData.img colorIcon) ∧
    (runScript true s).fs.files "teams-package/outline.png" =
      some (FileData.img outlineIcon) ∧
    colorIcon.width = 192 ∧ colorIcon.height = 192 ∧ colorIcon.mode = Mode.RGB ∧
    outlineIcon.width = 32 ∧ outlineIcon.height = 32 ∧
    outlineIcon.mode = Mode.RGBA ∧
    (outlineIcon.pixel 0 0).a = 0 ∧
    ∃ x y, x < 32 ∧ y < 32 ∧ 0 < (outlineIcon.pixel x y).a := by
  rw [runScript_true] at h ⊢
  cases hc : s.writable "teams-package/color.png" with
  | false => rw [primaryRun_fail1 s hc] at h; exact absurd h one_ne_zero
  | true =>
    cases ho : s.writable "teams-package/outline.png" with
    | false => rw [primaryRun_fail2 s hc ho] at h; exact absurd h one_ne_zero
    | true =>
      rw [primaryRun_success s hc ho]
      refine ⟨by simp [setFile], by simp [setFile], rfl, rfl, rfl, rfl, rfl, rfl,
              by decide, 16, 19, by decide, by decide, by decide⟩

/-- Witness for C2 on a fully writable filesystem, where the primary run
completes with exit code 0. -/
theorem claim_C2_witness :
    (runScript true fsAllWritable).fs.files "teams-package/color.png" =
      some (FileData.img colorIcon) ∧
    (runScript true fsAllWritable).fs.files "teams-package/outline.png" =
      some (FileData.img outlineIcon) ∧
    colorIcon.width = 192 ∧ colorIcon.height = 192 ∧ colorIcon.mode = Mode.RGB ∧
    outlineIcon.width = 32 ∧ outlineIcon.height = 32 ∧
    outlineIcon.mode = Mode.RGBA ∧
    (outlineIcon.pixel 0 0).a = 0 ∧
    ∃ x y, x < 32 ∧ y < 32 ∧ 0 < (outlineIcon.pixel x y).a :=
  claim_C2 fsAllWritable (by rfl)

/-- C4: on either path, a run that completes with exit code 0 leaves both
output files present at their fixed relative paths. -/
theorem claim_C4 (pil : Bool) (s : FSState)
    (h : (runScript pil s).exitCode = 0) :
    (runScript pil s).fs.files "teams-package/color.png" ≠ none ∧
    (runScript pil s).fs.files "teams-package/outline.png" ≠ none := by
  cases pil with
  | false =>
    rw [runScript_false] at h ⊢
    cases hc : s.writable "teams-package/color.png" with
    | false => rw [fallbackRun_fail1 s hc] at h; exact absurd h one_ne_zero
    | true =>
      cases ho : s.writable "teams-package/outline.png" with
      | false => rw [fallbackRun_fail2 s hc ho] at h; exact absurd h one_ne_zero
      | true => rw [fallbackRun_success s hc ho]; constructor <;> simp [setFile]
  | true =>
    rw [runScript_true] at h ⊢
    cases hc : s.writable "teams-package/color.png" with
    | false => rw [primaryRun_fail1 s hc] at h; exact absurd h one_ne_zero
    | true =>
      cases ho : s.writable "teams-package/outline.png" with
      | false => rw [primaryRun_fail2 s hc ho] at h; exact absurd h one_ne_zero
      | true => rw [primaryRun_success s hc ho]; constructor <;> simp [setFile]

/-- Witness for C4 on the fallback path over a fully writable filesystem. -/
theorem claim_C4_witness :
    (runScript false fsAllWritable).fs.files "teams-package/color.png" ≠ none ∧
    (runScript false fsAllWritable).fs.files "teams-package/outline.png" ≠ none :=
  claim_C4 false fsAllWritable (by rfl)

/-- C5: the script is deterministic with no inputs: a second run from the
state a successful run left behind also succeeds and writes identical
content to both files (byte-identical raw placeholders on the fallback
path, the identical image on the primary path). -/
theorem claim_C5 (pil : Bool) (s : FSState)
    (h : (runScript pil s).exitCode = 0) :
    (runScript pil (runScript pil s).fs).exitCode = 0 ∧
    (runScript pil (runScript pil s).fs).fs.files "teams-package/color.png" =
      (runScript pil s).fs.files "teams-package/color.png" ∧
    (runScript pil (runScript pil s).fs).fs.files "teams-package/outline.png" =
      (runScript pil s).fs.files "teams-package/outline.png" := by
  cases pil with
  | false =>
    simp only [runScript_false] at h ⊢
    cases hc : s.writable "teams-package/color.png" with
    | false => rw [fallbackRun_fail1 s hc] at h; exact absurd h one_ne_zero
    | true =>
      cases ho : s.writable "teams-package/outline.png" with
      | false => rw [fallbackRun_fail2 s hc ho] at h; exact absurd h one_ne_zero
      | true =>
        simp [fallbackRun_success, setFile, hc, ho]
  | true =>
    simp only [runScript_true] at h ⊢
    cases hc : s.writable "teams-package/color.png" with
    | false => rw [primaryRun_fail1 s hc] at h; exact absurd h one_ne_zero
    | true =>
      cases ho : s.writable "teams-package/outline.png" with
      | false => rw [primaryRun_fail2 s hc ho] at h; exact absurd h one_ne_zero
      | true =>
        simp [primaryRun_success, setFile, hc, ho]

/-- Witness for C5 on the fallback path over a fully writable filesystem. -/
theorem claim_C5_witness :
    (runScript false (runScript false fsAllWritable).fs).exitCode = 0 ∧
    (runScript false (runScript false fsAllWritable).fs).fs.files
        "teams-package/color.png" =
      (runScript false fsAllWritable).fs.files "teams-package/color.png" ∧
    (runScript false (runScript false fsAllWritable).fs).fs.files
        "teams-package/outline.png" =
      (runScript false fsAllWritable).fs.files "teams-package/outline.png" :=
  claim_C5 false fsAllWritable (by rfl)

/-- C6: on either path, a successful run writes the color file (nominal
width 192) at an earlier position of the event trace than the outline file
(nominal width 32); both writes occur in that one run. -/
theorem claim_C6 (pil : Bool) (s : FSState)
    (h : (runScript pil s).exitCode = 0) :
    ∃ i j d d', i < j ∧
      (runScript pil s).events.get? i =
        some (Event.write "teams-package/color.png" d) ∧ nominalWidth d = 192 ∧
      (runScript pil s).events.get? j =
        some (Event.write "teams-package/outline.png" d') ∧ nominalWidth d' = 32 := by
  cases pil with
  | false =>
    rw [runScript_false] at h ⊢
    cases hc : s.writable "teams-package/color.png" with
    | false => rw [fallbackRun_fail1 s hc] at h; exact absurd h one_ne_zero
    | true =>
      cases ho : s.writable "teams-package/outline.png" with
      | false => rw [fallbackRun_fail2 s hc ho] at h; exact absurd h one_ne_zero
      | true =>
        rw [fallbackRun_success s hc ho]
        exact ⟨1, 2, FileData.raw fallbackColorBytes,
               FileData.raw fallbackOutlineBytes,
               by decide, rfl, by decide, rfl, by decide⟩
  | true =>
    rw [runScript_true] at h ⊢
    cases hc : s.writable "teams-package/color.png" with
    | false => rw [primaryRun_fail1 s hc] at h; exact absurd h one_ne_zero
    | true =>
      cases ho : s.writable "teams-package/outline.png" with
      | false => rw [primaryRun_fail2 s hc ho] at h; exact absurd h one_ne_zero
      | true =>
        rw [primaryRun_success s hc ho]
        exact ⟨0, 2, FileData.img colorIcon, FileData.img outlineIcon,
               by decide, rfl, rfl, rfl, rfl⟩

/-- Witness for C6 on the primary path over a fully writable filesystem. -/
theorem claim_C6_witness :
    ∃ i j d d', i < j ∧
      (runScript true fsAllWritable).events.get? i =
        some (Event.write "teams-package/color.png" d) ∧ nominalWidth d = 192 ∧
      (runScript true fsAllWritable).events.get? j =
        some (Event.write "teams-package/outline.png" d') ∧ nominalWidth d' = 32 :=
  claim_C6 true fsAllWritable (by rfl)

/-- C7: in the primary path an unwritable output path (such as a missing
teams-package directory) makes the process exit non-zero; the run never
changes which paths are writable (no directory is created) and never
prints the success notice. -/
theorem claim_C7 (s : FSState)
    (h : s.writable "teams-package/color.png" = false ∨
         s.writable "teams-package/outline.png" = false) :
    (runScript true s).exitCode ≠ 0 ∧
    Event.printed "Icons created successfully!" ∉ (runScript true s).events ∧
    (runScript true s).fs.writable = s.writable := by
  rw [runScript_true]
  cases hc : s.writable "teams-package/color.png" with
  | false =>
    rw [primaryRun_fail1 s hc]
    exact ⟨one_ne_zero, by simp, rfl⟩
  | true =>
    cases ho : s.writable "teams-package/outline.png" with
    | false =>
      rw [primaryRun_fail2 s hc ho]
      exact ⟨one_ne_zero, by simp, rfl⟩
    | true =>
      rcases h with h | h
      · rw [hc] at h; exact absurd h (by decide)
      · rw [ho] at h; exact absurd h (by decide)

/-- Witness for C7 on a filesystem with no writable path. -/
theorem claim_C7_witness :
    (runScript true fsNoneWritable).exitCode ≠ 0 ∧
    Event.printed "Icons created successfully!" ∉
      (runScript true fsNoneWritable).events ∧
    (runScript true fsNoneWritable).fs.writable = fsNoneWritable.writable :=
  claim_C7 fsNoneWritable (Or.inl rfl)

/-- C8: no rollback: on either path, when the outline write fails after the
color write succeeded, the run exits non-zero but the freshly written color
file content stays on disk. -/
theorem claim_C8 (s : FSState)
    (hc : s.writable "teams-package/color.png" = true)
    (ho : s.writable "teams-package/outline.png" = false) :
    (runScript true s).exitCode ≠ 0 ∧
    (runScript true s).fs.files "teams-package/color.png" =
      some (FileData.img colorIcon) ∧
    (runScript false s).exitCode ≠ 0 ∧
    (runScript false s).fs.files "teams-package/color.png" =
      some (FileData.raw fallbackColorBytes) := by
  rw [runScript_true, runScript_false, primaryRun_fail2 s hc ho,
      fallbackRun_fail2 s hc ho]
  exact ⟨one_ne_zero, by simp [setFile], one_ne_zero, by simp [setFile]⟩

/-- Witness for C8 on a filesystem where only the color path is writable. -/
theorem claim_C8_witness :
    (runScript true fsColorOnlyWritable).exitCode ≠ 0 ∧
    (runScript true fsColorOnlyWritable).fs.files "teams-package/color.png" =
      some (FileData.img colorIcon) ∧
    (runScript false fsColorOnlyWritable).exitCode ≠ 0 ∧
    (runScript false fsColorOnlyWritable).fs.files "teams-package/color.png" =
      some (FileData.raw fallbackColorBytes) :=
  claim_C8 fsColorOnlyWritable (by decide) (by decide)

/-- C9: on writable paths, the fallback run completes with exit code 0 and
ends through the explicit exit() call after writing its two files, while
the primary run also completes with exit code 0 but without any explicit
exit call. -/
theorem claim_C9 (s : FSState)
    (hc : s.writable "teams-package/color.png" = true)
    (ho : s.writable "teams-package/outline.png" = true) :
    (runScript false s).exitCode = 0 ∧
    (runScript false s).explicitExit = true ∧
    (runScript false s).fs.files "teams-package/color.png" ≠ none ∧
    (runScript false s).fs.files "teams-package/outline.png" ≠ none ∧
    (runScript true s).exitCode = 0 ∧
    (runScript true s).explicitExit = false := by
  rw [runScript_true, runScript_false, fallbackRun_success s hc ho,
      primaryRun_success s hc ho]
  exact ⟨rfl, rfl, by simp [setFile], by simp [setFile], rfl, rfl⟩

/-- Witness for C9 on a fully writable filesystem. -/
theorem claim_C9_witness :
    (runScript false fsAllWritable).exitCode = 0 ∧
    (runScript false fsAllWritable).explicitExit = true ∧
    (runScript false fsAllWritable).fs.files "teams-package/color.png" ≠ none ∧
    (runScript false fsAllWritable).fs.files "teams-package/outline.png" ≠ none ∧
    (runScript true fsAllWritable).exitCode = 0 ∧
    (runScript true fsAllWritable).explicitExit = false :=
  claim_C9 fsAllWritable rfl rfl

end CreateIcons
